import Mathlib

/-!
Verification development for the LINE-content generation pipeline
(`backend/models.py`, `backend/web_search.py`, `backend/content_generator.py`,
`backend/scraper.py`).

Modelling conventions:
* Python strings are `String`; Python's character-indexed slice `s[:n]` is `pySlice`,
  `str.strip()` is `pyStrip` (both operate on the code-point list, as Python does).
* `Optional`/missing dict keys are `Option`; Python truthiness of an optional string
  (`None` and `""` are falsy) is `truthyStr`.
* Remote collaborators (the OpenAI chat backend, the web-search backend, and
  `urllib.parse.urljoin`) are oracles passed in as function parameters; a raised
  exception from a remote call is an `Except.error`.
* Float parameters (temperature, top_p) are modelled as exact rationals.
-/

/-- Characterwise slice `s[:n]` of a Python string (Python slices count code points,
exactly as `List Char` positions do). -/
def pySlice (s : String) (n : Nat) : String := ⟨s.data.take n⟩

/-- Leading/trailing-whitespace removal, the meaning of Python `str.strip()`. -/
def pyStrip (s : String) : String :=
  ⟨((s.data.dropWhile Char.isWhitespace).reverse.dropWhile Char.isWhitespace).reverse⟩

/-- Truthiness filter for an optional Python string: `None` and `""` are falsy,
anything else is kept. -/
def truthyStr : Option String → Option String
  | some s => if s = "" then none else some s
  | none => none

/-- Substring containment: `t` occurs contiguously inside `s`. Used to state which
section headers occur in a built prompt. -/
def ContainsSubstr (s t : String) : Prop := ∃ pre post, s = pre ++ (t ++ post)

theorem containsSubstr_self (t : String) : ContainsSubstr t t :=
  ⟨"", "", by rw [String.append_empty, String.empty_append]⟩

theorem containsSubstr_append_left (a : String) {s t : String} (h : ContainsSubstr s t) :
    ContainsSubstr (a ++ s) t := by
  obtain ⟨pre, post, rfl⟩ := h
  exact ⟨a ++ pre, post, by rw [String.append_assoc]⟩

theorem containsSubstr_append_right (b : String) {s t : String} (h : ContainsSubstr s t) :
    ContainsSubstr (s ++ b) t := by
  obtain ⟨pre, post, rfl⟩ := h
  exact ⟨pre, post ++ b, by simp only [String.append_assoc]⟩

/-! ## Data model (`models.py`) -/

/-- Mirrors `LineContentRequest` in `models.py`. `HttpUrl` fields are well-formed URL
strings; `Optional[str]` fields are `Option String`. Pydantic defaults are supplied by
the HTTP boundary and irrelevant to the pipeline logic, so they are not repeated here. -/
structure LineContentRequest where
  company_name : String
  company_url : String
  blog_url : String
  redirect_text : String
  bracket_type : String
  honorific : String
  child_honorific : String
  fixed_format : Option String
  add_emotional_intro : Bool
  writing_style : String
  line_break_style : String
  content_length : String
  date_format : String
  bullet_point : String
  emoji_types : String
  emoji_count : String
  greeting_text : String
  reference_template : Option String
deriving DecidableEq

/-- Mirrors `ScrapedContent` in `models.py`. -/
structure ScrapedContent where
  title : String
  content : String
  images : List String
deriving DecidableEq

/-- Mirrors `GeneratedContent` in `models.py`. -/
structure GeneratedContent where
  content : String
  markdown : String
deriving DecidableEq

/-! ## Search enricher (`web_search.py`) -/

/-- One entry of the `annotations` attribute of an output-text block of the
Responses API: either a URL citation (with optional title) or something else. -/
inductive RespNote where
  | urlCitation (url : String) (title : Option String)
  | otherNote
deriving DecidableEq

/-- One entry of `item.content` in the Responses API output: an `output_text`
block (its `annotations` attribute may be absent) or something else. -/
inductive RespContent where
  | outputText (text : String) (notes : Option (List RespNote))
  | otherContent
deriving DecidableEq

/-- One entry of `response.output`: a `message` item or something else. -/
inductive RespItem where
  | message (content : List RespContent)
  | otherItem
deriving DecidableEq

/-- The shape of the Responses-API reply consumed by `search_related_info`. -/
structure SearchResponse where
  output : List RespItem
deriving DecidableEq

/-- One citation record `{"url": ..., "title": ...}` built by `search_related_info`. -/
structure CitationRec where
  url : String
  title : String
deriving DecidableEq

/-- The dict returned by `WebSearchClient.search_related_info`. `Option` fields model
presence of the corresponding dict key (`none` = key absent). The initial
`"search_results": []` list key is written but never read anywhere, so it is omitted. -/
structure SearchResultsDict where
  summary : Option String
  citations : Option (List CitationRec)
  error : Option String
deriving DecidableEq

/-- Extraction of one citation record from one `annotations` entry
(`annotation.title` defaults to `""` when absent). -/
def citationOfNote : RespNote → Option CitationRec
  | .urlCitation url title => some ⟨url, title.getD ""⟩
  | .otherNote => none

/-- Effect of one `content` block on the result dict: an `output_text` block sets
`summary` to its text and, when its `annotations` attribute exists, sets `citations`
to the URL citations found there. -/
def applyRespContent (acc : SearchResultsDict) : RespContent → SearchResultsDict
  | .outputText text notes =>
    let acc' : SearchResultsDict := { acc with summary := some text }
    match notes with
    | some ns => { acc' with citations := some (ns.filterMap citationOfNote) }
    | none => acc'
  | .otherContent => acc

/-- Effect of one `response.output` item on the result dict. -/
def applyRespItem (acc : SearchResultsDict) : RespItem → SearchResultsDict
  | .message cs => cs.foldl applyRespContent acc
  | .otherItem => acc

/-- The natural-language input sent to the search backend by `search_related_info`. -/
def searchInstruction (query : String) : String :=
  "以下のトピックに関する最新情報を詳しく調査してください。情報は日本語で要約し、情報源も含めてください。検索対象: " ++ query

/-- Mirrors `WebSearchClient.search_related_info`: on any backend failure the whole
call is caught and the error dict `{"error": e, "summary": "", "citations": []}` is
returned; on success the response items are folded into the result dict. -/
def searchRelatedInfo (searchBackend : String → Except String SearchResponse)
    (query : String) : SearchResultsDict :=
  match searchBackend (searchInstruction query) with
  | .error e => { summary := some "", citations := some [], error := some e }
  | .ok resp =>
    resp.output.foldl applyRespItem { summary := none, citations := none, error := none }

/-- The dict returned by `WebSearchClient.enhance_content_with_web_search`. -/
structure EnhanceResult where
  topic : String
  search_results : SearchResultsDict
deriving DecidableEq

/-- Mirrors `WebSearchClient.enhance_content_with_web_search`: the query is
`f"{request.company_name} {topic}"`. -/
def enhanceContentWithWebSearch (searchBackend : String → Except String SearchResponse)
    (request : LineContentRequest) (topic : String) : EnhanceResult :=
  { topic := topic
    search_results :=
      searchRelatedInfo searchBackend (request.company_name ++ " " ++ topic) }

/-! ## Prompt builder (`ContentGenerator._build_prompt`) -/

/-- The `image_instruction` local of `_build_prompt`: empty for an empty image list,
otherwise the count-of-attached-images instruction. -/
def imageInstruction (selected_images : List String) : String :=
  if selected_images.isEmpty then ""
  else if selected_images.length = 1 then
    "記事には1枚の添付画像があります。画像について言及せず、テキストのみを生成してください。"
  else
    "記事には" ++ toString selected_images.length
      ++ "枚の添付画像があります。画像について言及せず、テキストのみを生成してください。"

/-- The `template_instruction` local of `_build_prompt` (`if request.reference_template:`
is Python truthiness, so `None` and `""` both yield the empty section). -/
def templateInstruction : Option String → String
  | none => ""
  | some t =>
    if t = "" then ""
    else
      "\n            以下のテンプレートを参考にして、全体的な文調とフォーマットを模倣してください：\n            \n            "
        ++ t ++ "\n            "

/-- Header line of the web-search section of the prompt. -/
def webSearchHeader : String := "# Web検索で収集した追加情報"

/-- The `web_search_section` local of `_build_prompt`. The guard in the source is
`web_search_info and 'search_results' in web_search_info and
'summary' in web_search_info['search_results']`: `none` models the falsy empty dict,
and the `'summary'` key test is presence of the `summary` field — key presence, not
non-emptiness of its value. -/
def webSearchSection : Option EnhanceResult → String
  | none => ""
  | some info =>
    match info.search_results.summary with
    | none => ""
    | some s =>
      "\n            "
        ++ (webSearchHeader
          ++ ("\n            \n            " ++ s
            ++ "\n            \n            この情報を適切に利用して、記事の内容を充実させてください。ただし、過度に専門的になりすぎず、LINE配信の読みやすさを保ってください。\n            "))

/-- Mirrors `ContentGenerator._build_prompt`: the f-string of the source, written as a
concatenation chain. Whitespace (the 8-space indent of every line and the trailing
blank segments) is kept byte-for-byte, including the literal
"  # 長すぎる場合は制限" text that sits inside the f-string after the body slice. -/
def buildPrompt (request : LineContentRequest) (scraped_content : ScrapedContent)
    (selected_images : List String) (web_search_info : Option EnhanceResult) : String :=
  "\n        あなたは企業のLINE配信記事のプロの作成者です。元のブログ記事をLINE配信向けに最適化された記事に書き換える必要があります。\n        \n        # 企業情報\n        - 企業名: "
    ++ request.company_name
    ++ "\n        - 企業URL: "
    ++ request.company_url
    ++ "\n        \n        # 元のブログ記事\n        タイトル: "
    ++ scraped_content.title
    ++ "\n        \n        コンテンツ:\n        "
    ++ pySlice scraped_content.content 1500
    ++ "  # 長すぎる場合は制限\n        \n        "
    ++ (webSearchSection web_search_info
      ++ ("\n        \n        # LINE配信記事の要件\n        - 記事の長さ: "
          ++ request.content_length
          ++ "\n        - 文体: "
          ++ request.writing_style
          ++ "（丁寧/カジュアル）\n        - 改行位置: "
          ++ request.line_break_style
          ++ "\n        - かっこの種類: "
          ++ request.bracket_type
          ++ "\n        - 敬称: "
          ++ request.honorific
          ++ "\n        - 子どもの敬称: "
          ++ request.child_honorific
          ++ "\n        - 感情を誘発させる文頭: "
          ++ (if request.add_emotional_intro then "必要" else "不要")
          ++ "\n        - 絵文字の種類: "
          ++ request.emoji_types
          ++ "\n        - 絵文字の量: "
          ++ request.emoji_count
          ++ "個程度/配信\n        - 箇条書き記号: "
          ++ request.bullet_point
          ++ "\n        - 日時フォーマット: "
          ++ request.date_format
          ++ "\n        - 挨拶文: "
          ++ request.greeting_text
          ++ "\n        - 元記事への誘導: "
          ++ request.redirect_text
          ++ "\n        "
        ++ ("- 画像: "
          ++ ((if selected_images.isEmpty then "なし"
              else "あり (" ++ toString selected_images.length ++ "枚)")
            ++ ("\n        \n        "
              ++ (imageInstruction selected_images
                ++ ("\n        \n        "
                  ++ (templateInstruction request.reference_template
                    ++ "\n        \n        # 指示\n        1. オリジナルのブログコンテンツの主要なメッセージを保持しながら、LINEのカジュアルな配信向けに最適化してください。\n        2. 指定された絵文字を適切な場所に使い、親しみやすさを演出してください。\n        3. 記事の最後には必ず元の記事へのリンク誘導文を入れてください。\n        4. 顧客目線で、読者の興味を引く内容に仕上げてください。\n        5. 文字数は指定された長さにしてください。\n        6. 必要に応じて箇条書きを使って見やすくしてください。\n        7. Web検索から得た追加情報がある場合は、それも活用して記事の価値を高めてください。ただし、情報源の詳細なURLなどは含めないでください。\n        \n        最終的な出力は、LINEで配信するテキストのみを含めてください。マークダウン形式は必要ありません。\n        "))))))))

/-! ## Markdown formatting (`ContentGenerator._format_as_markdown`) -/

/-- One Markdown image reference as appended by `_format_as_markdown`
(`f"\n\n![記事画像 {i+1}]({image_url})"`). -/
def imageRefMd (n : Nat) (image_url : String) : String :=
  "\n\n![記事画像 " ++ toString n ++ "](" ++ image_url ++ ")"

/-- Mirrors `ContentGenerator._format_as_markdown`: start from the raw content, append
one numbered image reference per selected image (via `enumerate`), then append the
"view more" link when `blog_url` is truthy. -/
def formatAsMarkdown (content : String) (selected_images : List String)
    (blog_url : Option String) : String :=
  let markdown := content
  let markdown :=
    selected_images.enum.foldl (fun md p => md ++ imageRefMd (p.1 + 1) p.2) markdown
  match truthyStr blog_url with
  | some u => markdown ++ ("\n\n[詳細を見る](" ++ u ++ ")")
  | none => markdown

/-! ## Variant generator (`ContentGenerator.generate_line_content`) -/

/-- The chat-completion request issued for variant index `i` in
`generate_line_content`: model gpt-4o, the built prompt as system message, a per-index
user message, `max_tokens=800`, `temperature=0.7 + i*0.1`, `top_p=0.95`. -/
structure ChatRequest where
  model : String
  systemMessage : String
  userMessage : String
  max_tokens : Nat
  temperature : ℚ
  top_p : ℚ
  frequency_penalty : ℚ
  presence_penalty : ℚ
deriving DecidableEq

/-- The concrete `client.chat.completions.create` argument record for variant `i`. -/
def chatRequestFor (prompt : String) (i : Nat) : ChatRequest :=
  { model := "gpt-4o"
    systemMessage := prompt
    userMessage := "LINE配信記事のバリエーション" ++ toString (i + 1) ++ "を生成してください。"
    max_tokens := 800
    temperature := 0.7 + (i : ℚ) * 0.1
    top_p := 0.95
    frequency_penalty := 0
    presence_penalty := 0 }

/-- Body of one loop iteration of `generate_line_content`: call the chat backend for
variant `i` and package the reply as a `GeneratedContent` whose `markdown` is the
formatted version of the raw reply. -/
def generateVariant (request : LineContentRequest) (selected_images : List String)
    (prompt : String) (genBackend : ChatRequest → Except String String) (i : Nat) :
    Except String GeneratedContent :=
  match genBackend (chatRequestFor prompt i) with
  | .error e => .error e
  | .ok content =>
    .ok { content := content
          markdown := formatAsMarkdown content selected_images (some request.blog_url) }

/-- The `for i in range(3)` loop of `generate_line_content`: variants are produced in
index order; the first backend failure aborts the whole loop (the locally accumulated
list is discarded, exactly as the Python exception discards `variations`). -/
def generateVariants (request : LineContentRequest) (selected_images : List String)
    (prompt : String) (genBackend : ChatRequest → Except String String) :
    List Nat → Except String (List GeneratedContent)
  | [] => .ok []
  | i :: rest =>
    match generateVariant request selected_images prompt genBackend i with
    | .error e => .error e
    | .ok v =>
      match generateVariants request selected_images prompt genBackend rest with
      | .error e => .error e
      | .ok vs => .ok (v :: vs)

/-- The prompt actually used by `generate_line_content`: web-search info is the
enhancement result when `use_web_search` is set (the `try` around the enhancement is
dead code, since `search_related_info` already catches every failure internally and
returns the error dict), and the falsy initial `{}` otherwise. -/
def promptOf (request : LineContentRequest) (scraped_content : ScrapedContent)
    (selected_images : List String) (use_web_search : Bool)
    (searchBackend : String → Except String SearchResponse) : String :=
  buildPrompt request scraped_content selected_images
    (if use_web_search then
      some (enhanceContentWithWebSearch searchBackend request scraped_content.title)
    else none)

/-- Mirrors `ContentGenerator.generate_line_content`: build the prompt (with optional
web-search enrichment), generate the 3 variants, and re-raise any backend failure as
the generation error. -/
def generateLineContent (request : LineContentRequest) (scraped_content : ScrapedContent)
    (selected_images : List String) (use_web_search : Bool)
    (searchBackend : String → Except String SearchResponse)
    (genBackend : ChatRequest → Except String String) :
    Except String (List GeneratedContent) :=
  match generateVariants request selected_images
      (promptOf request scraped_content selected_images use_web_search searchBackend)
      genBackend (List.range 3) with
  | .ok variations => .ok variations
  | .error e => .error ("OpenAI APIでのコンテンツ生成に失敗しました: " ++ e)

/-! ## Extractor (`scraper.py`) -/

/-- One `img` tag: its `src` and lazy-load `data-src` attributes (absent = `none`). -/
structure ImgTag where
  src : Option String
  dataSrc : Option String
deriving DecidableEq

/-- An HTML element, abstracted to what `_extract_images` reads from it: the `img`
tags it contains (in document order). -/
structure HtmlElement where
  imgs : List ImgTag
deriving DecidableEq

/-- A parsed document, abstracted to the queries the scraper performs on it: the text
of the first `h1` / first known article-title-class element / `title` tag (if any),
the first element found for each selector of the content-selector cascade, and the
document-wide `img` list. -/
structure Soup where
  h1 : Option String
  articleTitleClass : Option String
  titleTag : Option String
  articleTag : Option HtmlElement
  articleContentClass : Option HtmlElement
  entryContentClass : Option HtmlElement
  postContentClass : Option HtmlElement
  contentId : Option HtmlElement
  contentClass : Option HtmlElement
  mainTag : Option HtmlElement
  mainClass : Option HtmlElement
  allImgs : List ImgTag
deriving DecidableEq

/-- One step of `_extract_title`: return the stripped text when the element exists and
its stripped text is non-empty, otherwise fall through. -/
def tryTitleText (cand : Option String) (fallback : String) : String :=
  match cand with
  | some t => if pyStrip t = "" then fallback else pyStrip t
  | none => fallback

/-- Mirrors `BlogScraper._extract_title`: h1 text, then article-title-class text, then
`title` tag text, then the sentinel. -/
def extractTitle (soup : Soup) : String :=
  tryTitleText soup.h1
    (tryTitleText soup.articleTitleClass
      (tryTitleText soup.titleTag "タイトル不明"))

/-- The content-selector cascade shared verbatim by `_extract_content` and
`_extract_images`: `'article', '.article-content', '.entry-content', '.post-content',
'#content', '.content', 'main', '.main'` in order; when no selector matches, the whole
document is used. -/
def findContentElement (soup : Soup) : HtmlElement :=
  match soup.articleTag with
  | some e => e
  | none =>
  match soup.articleContentClass with
  | some e => e
  | none =>
  match soup.entryContentClass with
  | some e => e
  | none =>
  match soup.postContentClass with
  | some e => e
  | none =>
  match soup.contentId with
  | some e => e
  | none =>
  match soup.contentClass with
  | some e => e
  | none =>
  match soup.mainTag with
  | some e => e
  | none =>
  match soup.mainClass with
  | some e => e
  | none => { imgs := soup.allImgs }

/-- The `src = img.get('src') or img.get('data-src'); if src:` idiom: the first truthy
attribute among `src` and `data-src`, if any. -/
def imgSrcAttr (img : ImgTag) : Option String :=
  match truthyStr img.src with
  | some s => some s
  | none => truthyStr img.dataSrc

/-- URL collection over a list of `img` tags: keep tags with a truthy `src`/`data-src`
and resolve each against the page URL with the injected `urljoin`. -/
def collectImgs (pageUrl : String) (urljoin : String → String → String)
    (imgs : List ImgTag) : List String :=
  imgs.filterMap fun img => (imgSrcAttr img).map fun src => urljoin pageUrl src

/-- The raw (pre-deduplication) URL stream of `_extract_images`: the content
container's images, or — when that list is empty — a re-scan of the whole document. -/
def rawImages (pageUrl : String) (urljoin : String → String → String)
    (soup : Soup) : List String :=
  let images := collectImgs pageUrl urljoin (findContentElement soup).imgs
  if images.isEmpty then collectImgs pageUrl urljoin soup.allImgs else images

/-- Order-preserving deduplication, the meaning of `list(dict.fromkeys(images))`:
keep an element only on its first appearance. -/
def dedupFirstGo (seen : List String) : List String → List String
  | [] => []
  | x :: xs =>
    if x ∈ seen then dedupFirstGo seen xs else x :: dedupFirstGo (x :: seen) xs

/-- Deduplicate keeping first occurrences, `list(dict.fromkeys(images))`. -/
def dedupFirst (l : List String) : List String := dedupFirstGo [] l

/-- Mirrors `BlogScraper._extract_images`: collect, fall back on an empty result, then
deduplicate preserving first-seen order. -/
def extractImages (pageUrl : String) (urljoin : String → String → String)
    (soup : Soup) : List String :=
  dedupFirst (rawImages pageUrl urljoin soup)

/-! ## Specification-side definitions

These follow the wording of the specification (not the source) and exist to be
compared against the source-derived definitions above. -/

/-- Spec reading of keep-first deduplication: the first occurrence of each element is
kept in place and every later copy of it is deleted. -/
def firstOccurrences : List String → List String
  | [] => []
  | x :: xs => x :: firstOccurrences (xs.filter fun y => !decide (y = x))
termination_by l => l.length
decreasing_by
  simp only [List.length_cons]
  exact Nat.lt_succ_of_le (List.length_filter_le _ _)

/-- Spec reading of title resolution: the first candidate with non-empty stripped text
wins; with no such candidate the sentinel is returned. -/
def firstNonEmptyTitle : List (Option String) → String
  | [] => "タイトル不明"
  | none :: rest => firstNonEmptyTitle rest
  | some t :: rest => if pyStrip t = "" then firstNonEmptyTitle rest else pyStrip t

/-- The title candidates in the fixed resolution order of the spec:
first h1, first article-title-class element, document title element. -/
def titleCandidates (soup : Soup) : List (Option String) :=
  [soup.h1, soup.articleTitleClass, soup.titleTag]

/-- Concatenation of a list of strings (spec-side helper). -/
def concatStrs : List String → String
  | [] => ""
  | s :: rest => s ++ concatStrs rest

/-- Spec reading of the appended image-reference block: one Markdown image reference
per selected URL, numbered sequentially from 1, in input order. -/
def imageRefsSpec (selected_images : List String) : String :=
  concatStrs (selected_images.enum.map fun p => imageRefMd (p.1 + 1) p.2)

/-- Spec reading of the trailing source link: exactly one "view more" link when the
source URL is present (a well-formed URL is non-empty; `""` is Python-falsy and
treated as absent, as the code does). -/
def sourceLinkSpec : Option String → String
  | some u => if u = "" then "" else "\n\n[詳細を見る](" ++ u ++ ")"
  | none => ""

/-! ## Helper lemmas -/

theorem containsSubstr_head (t b : String) : ContainsSubstr (t ++ b) t :=
  ⟨"", b, by rw [String.empty_append]⟩

theorem foldl_imageRef_append (ps : List (Nat × String)) (init : String) :
    ps.foldl (fun md p => md ++ imageRefMd (p.1 + 1) p.2) init
      = init ++ concatStrs (ps.map fun p => imageRefMd (p.1 + 1) p.2) := by
  induction ps generalizing init with
  | nil => simp only [List.foldl_nil, List.map_nil, concatStrs, String.append_empty]
  | cons p ps ih =>
    simp only [List.foldl_cons, List.map_cons, concatStrs, ih, String.append_assoc]

theorem formatAsMarkdown_eq_spec (content : String) (selected_images : List String)
    (blog_url : Option String) :
    formatAsMarkdown content selected_images blog_url
      = content ++ imageRefsSpec selected_images ++ sourceLinkSpec blog_url := by
  simp only [formatAsMarkdown, imageRefsSpec]
  rw [foldl_imageRef_append]
  rcases blog_url with _ | u
  · simp only [truthyStr, sourceLinkSpec, String.append_empty]
  · by_cases hu : u = ""
    · subst hu
      simp [truthyStr, sourceLinkSpec, String.append_empty]
    · simp only [truthyStr, sourceLinkSpec, if_neg hu, String.append_assoc]

theorem pySlice_pySlice (s : String) (n : Nat) :
    pySlice (pySlice s n) n = pySlice s n := by
  simp only [pySlice, List.take_take, Nat.min_self]

/-- Concrete request used to instantiate theorems with hypotheses. -/
def req0 : LineContentRequest :=
  { company_name := "ACME"
    company_url := "https://acme.example"
    blog_url := "https://acme.example/blog/1"
    redirect_text := "see the link"
    bracket_type := "【】"
    honorific := "様"
    child_honorific := "お子様"
    fixed_format := none
    add_emotional_intro := true
    writing_style := "カジュアル"
    line_break_style := "読みやすさ重視"
    content_length := "200文字前後"
    date_format := "MM月DD日"
    bullet_point := "-"
    emoji_types := "😊"
    emoji_count := "4"
    greeting_text := "hello"
    reference_template := none }

/-- Concrete scraped article used to instantiate theorems with hypotheses. -/
def sc0 : ScrapedContent := { title := "Sale Event", content := "body text", images := [] }

/-! ## Claims -/

/-- C3: for every raw generated text, image-URL list, and optional source URL, the
formatted markdown equals the raw text, then one numbered Markdown image reference per
selected URL (numbered from 1, in input order), then — exactly when the source URL is
present — one trailing "view more" link to it; and every variant packaged by the
generator carries the raw backend reply unmodified in `content` with `markdown` being
its formatted version. -/
theorem c3_markdown_format :
    (∀ content selected_images blog_url,
        formatAsMarkdown content selected_images blog_url
          = content ++ imageRefsSpec selected_images ++ sourceLinkSpec blog_url)
    ∧ (∀ request selected_images prompt gb i v,
        generateVariant request selected_images prompt gb i = Except.ok v →
        gb (chatRequestFor prompt i) = Except.ok v.content
        ∧ v.markdown = formatAsMarkdown v.content selected_images (some request.blog_url)) := by
  refine ⟨formatAsMarkdown_eq_spec, ?_⟩
  intro request selected_images prompt gb i v hok
  unfold generateVariant at hok
  rcases hg : gb (chatRequestFor prompt i) with e | c <;> rw [hg] at hok
  · cases hok
  · cases hok
    exact ⟨rfl, rfl⟩

/-- Variant record produced by the concrete run used in the C3 witness. -/
def v0 : GeneratedContent :=
  { content := "raw", markdown := formatAsMarkdown "raw" [] (some req0.blog_url) }

/-- Witness for C3 at a concrete successful backend call. -/
theorem c3_markdown_format_witness :
    (fun _ => (Except.ok "raw" : Except String String)) (chatRequestFor "p" 0)
        = Except.ok v0.content
    ∧ v0.markdown = formatAsMarkdown v0.content [] (some req0.blog_url) :=
  c3_markdown_format.2 req0 [] "p" (fun _ => Except.ok "raw") 0 v0 rfl

/-- C4: the built prompt depends on the article body only through its first 1500
characters (so no character beyond position 1500 can reach the prompt), and the
embedded slice has length at most 1500. The cap is the literal `1500` inside
`_build_prompt`; no parameter of the function can change it. -/
theorem c4_body_truncation (request : LineContentRequest) (sc : ScrapedContent)
    (selected_images : List String) (w : Option EnhanceResult) :
    buildPrompt request { sc with content := pySlice sc.content 1500 } selected_images w
      = buildPrompt request sc selected_images w
    ∧ (pySlice sc.content 1500).length ≤ 1500 := by
  constructor
  · have h1 : ({ sc with content := pySlice sc.content 1500 } : ScrapedContent).content
        = pySlice sc.content 1500 := rfl
    have h2 : ({ sc with content := pySlice sc.content 1500 } : ScrapedContent).title
        = sc.title := rfl
    simp only [buildPrompt, h1, h2, pySlice_pySlice]
  · show (sc.content.data.take 1500).length ≤ 1500
    rw [List.length_take]
    exact Nat.min_le_left _ _

/-- C8: the temperature sent with variant index `i` is `0.7 + i*0.1`, and across the
three calls of one request each variant's temperature is strictly greater than the
preceding one's. -/
theorem c8_temperature_monotone (prompt : String) (i j : Nat)
    (hij : i < j) (hj : j < 3) :
    (chatRequestFor prompt i).temperature = 0.7 + (i : ℚ) * 0.1
    ∧ (chatRequestFor prompt i).temperature < (chatRequestFor prompt j).temperature := by
  refine ⟨rfl, ?_⟩
  show (0.7 : ℚ) + (i : ℚ) * 0.1 < 0.7 + (j : ℚ) * 0.1
  have h : (i : ℚ) < (j : ℚ) := by exact_mod_cast hij
  nlinarith

/-- Witness for C8 at indices 0 and 1. -/
theorem c8_temperature_monotone_witness :
    (0 < 1 ∧ 1 < 3)
    ∧ ((chatRequestFor "p" 0).temperature = 0.7 + ((0 : Nat) : ℚ) * 0.1
       ∧ (chatRequestFor "p" 0).temperature < (chatRequestFor "p" 1).temperature) :=
  ⟨⟨by decide, by decide⟩, c8_temperature_monotone "p" 0 1 (by decide) (by decide)⟩

/-- C9: the raw content is a character-for-character front segment of the formatted
markdown; with no images and no source URL the formatting is the identity. -/
theorem c9_markdown_extends_content :
    (∀ content selected_images blog_url, ∃ suffix,
        formatAsMarkdown content selected_images blog_url = content ++ suffix)
    ∧ ∀ content, formatAsMarkdown content [] none = content := by
  constructor
  · intro content selected_images blog_url
    refine ⟨imageRefsSpec selected_images ++ sourceLinkSpec blog_url, ?_⟩
    rw [formatAsMarkdown_eq_spec, String.append_assoc]
  · intro content
    rfl

/-! ## Variant generation: all-or-nothing behavior -/

theorem generateVariants_range3_ok (request : LineContentRequest)
    (selected_images : List String) (prompt : String)
    (gb : ChatRequest → Except String String) (c0 c1 c2 : String)
    (h0 : gb (chatRequestFor prompt 0) = Except.ok c0)
    (h1 : gb (chatRequestFor prompt 1) = Except.ok c1)
    (h2 : gb (chatRequestFor prompt 2) = Except.ok c2) :
    generateVariants request selected_images prompt gb (List.range 3)
      = Except.ok
          [⟨c0, formatAsMarkdown c0 selected_images (some request.blog_url)⟩,
           ⟨c1, formatAsMarkdown c1 selected_images (some request.blog_url)⟩,
           ⟨c2, formatAsMarkdown c2 selected_images (some request.blog_url)⟩] := by
  rw [show List.range 3 = [0, 1, 2] from rfl]
  simp [generateVariants, generateVariant, h0, h1, h2]

theorem generateLineContent_ok (request : LineContentRequest) (sc : ScrapedContent)
    (selected_images : List String) (use_web_search : Bool)
    (sb : String → Except String SearchResponse)
    (gb : ChatRequest → Except String String) (c0 c1 c2 : String)
    (h0 : gb (chatRequestFor (promptOf request sc selected_images use_web_search sb) 0)
            = Except.ok c0)
    (h1 : gb (chatRequestFor (promptOf request sc selected_images use_web_search sb) 1)
            = Except.ok c1)
    (h2 : gb (chatRequestFor (promptOf request sc selected_images use_web_search sb) 2)
            = Except.ok c2) :
    generateLineContent request sc selected_images use_web_search sb gb
      = Except.ok
          [⟨c0, formatAsMarkdown c0 selected_images (some request.blog_url)⟩,
           ⟨c1, formatAsMarkdown c1 selected_images (some request.blog_url)⟩,
           ⟨c2, formatAsMarkdown c2 selected_images (some request.blog_url)⟩] := by
  unfold generateLineContent
  rw [generateVariants_range3_ok request selected_images _ gb c0 c1 c2 h0 h1 h2]

/-- C2: the variant generator is all-or-nothing. When all three backend calls succeed
it returns exactly the ordered 3-entry list of packaged variants; every list it ever
returns has exactly 3 entries and implies all three calls succeeded (so no partial
list can reach the caller); and any failing call makes the whole operation return the
generation error. -/
theorem c2_variant_generation_all_or_nothing (request : LineContentRequest)
    (sc : ScrapedContent) (selected_images : List String) (use_web_search : Bool)
    (sb : String → Except String SearchResponse)
    (gb : ChatRequest → Except String String) :
    (∀ c0 c1 c2,
        gb (chatRequestFor (promptOf request sc selected_images use_web_search sb) 0)
            = Except.ok c0 →
        gb (chatRequestFor (promptOf request sc selected_images use_web_search sb) 1)
            = Except.ok c1 →
        gb (chatRequestFor (promptOf request sc selected_images use_web_search sb) 2)
            = Except.ok c2 →
        generateLineContent request sc selected_images use_web_search sb gb
          = Except.ok
              [⟨c0, formatAsMarkdown c0 selected_images (some request.blog_url)⟩,
               ⟨c1, formatAsMarkdown c1 selected_images (some request.blog_url)⟩,
               ⟨c2, formatAsMarkdown c2 selected_images (some request.blog_url)⟩])
    ∧ (∀ l, generateLineContent request sc selected_images use_web_search sb gb
          = Except.ok l →
        l.length = 3
        ∧ ∀ i, i < 3 →
            ∃ c, gb (chatRequestFor
                (promptOf request sc selected_images use_web_search sb) i)
              = Except.ok c)
    ∧ (∀ i e, i < 3 →
        gb (chatRequestFor (promptOf request sc selected_images use_web_search sb) i)
            = Except.error e →
        ∃ msg, generateLineContent request sc selected_images use_web_search sb gb
          = Except.error msg) := by
  refine ⟨fun c0 c1 c2 h0 h1 h2 =>
    generateLineContent_ok request sc selected_images use_web_search sb gb c0 c1 c2 h0 h1 h2,
    ?_, ?_⟩
  · intro l hl
    unfold generateLineContent at hl
    rw [show List.range 3 = [0, 1, 2] from rfl] at hl
    rcases hg0 : gb (chatRequestFor (promptOf request sc selected_images use_web_search sb) 0)
      with e0 | c0
    · simp only [generateVariants, generateVariant, hg0] at hl
      exact (Except.noConfusion hl)
    rcases hg1 : gb (chatRequestFor (promptOf request sc selected_images use_web_search sb) 1)
      with e1 | c1
    · simp only [generateVariants, generateVariant, hg0, hg1] at hl
      exact (Except.noConfusion hl)
    rcases hg2 : gb (chatRequestFor (promptOf request sc selected_images use_web_search sb) 2)
      with e2 | c2
    · simp only [generateVariants, generateVariant, hg0, hg1, hg2] at hl
      exact (Except.noConfusion hl)
    simp only [generateVariants, generateVariant, hg0, hg1, hg2] at hl
    injection hl with h
    subst h
    refine ⟨rfl, ?_⟩
    intro i hi
    interval_cases i
    · exact ⟨c0, hg0⟩
    · exact ⟨c1, hg1⟩
    · exact ⟨c2, hg2⟩
  · intro i e hi hge
    interval_cases i
    · exact ⟨"OpenAI APIでのコンテンツ生成に失敗しました: " ++ e, by
        unfold generateLineContent
        rw [show List.range 3 = [0, 1, 2] from rfl]
        simp only [generateVariants, generateVariant, hge]⟩
    · rcases hg0 : gb (chatRequestFor (promptOf request sc selected_images use_web_search sb) 0)
        with e0 | c0
      · exact ⟨"OpenAI APIでのコンテンツ生成に失敗しました: " ++ e0, by
          unfold generateLineContent
          rw [show List.range 3 = [0, 1, 2] from rfl]
          simp only [generateVariants, generateVariant, hg0]⟩
      · exact ⟨"OpenAI APIでのコンテンツ生成に失敗しました: " ++ e, by
          unfold generateLineContent
          rw [show List.range 3 = [0, 1, 2] from rfl]
          simp only [generateVariants, generateVariant, hg0, hge]⟩
    · rcases hg0 : gb (chatRequestFor (promptOf request sc selected_images use_web_search sb) 0)
        with e0 | c0
      · exact ⟨"OpenAI APIでのコンテンツ生成に失敗しました: " ++ e0, by
          unfold generateLineContent
          rw [show List.range 3 = [0, 1, 2] from rfl]
          simp only [generateVariants, generateVariant, hg0]⟩
      rcases hg1 : gb (chatRequestFor (promptOf request sc selected_images use_web_search sb) 1)
        with e1 | c1
      · exact ⟨"OpenAI APIでのコンテンツ生成に失敗しました: " ++ e1, by
          unfold generateLineContent
          rw [show List.range 3 = [0, 1, 2] from rfl]
          simp only [generateVariants, generateVariant, hg0, hg1]⟩
      · exact ⟨"OpenAI APIでのコンテンツ生成に失敗しました: " ++ e, by
          unfold generateLineContent
          rw [show List.range 3 = [0, 1, 2] from rfl]
          simp only [generateVariants, generateVariant, hg0, hg1, hge]⟩

/-- Witness for C2: a healthy backend produces exactly the 3 packaged variants. -/
theorem c2_variant_generation_all_or_nothing_witness :
    generateLineContent req0 sc0 [] false (fun _ => Except.error "down")
        (fun _ => Except.ok "text")
      = Except.ok
          [⟨"text", formatAsMarkdown "text" [] (some req0.blog_url)⟩,
           ⟨"text", formatAsMarkdown "text" [] (some req0.blog_url)⟩,
           ⟨"text", formatAsMarkdown "text" [] (some req0.blog_url)⟩] :=
  (c2_variant_generation_all_or_nothing req0 sc0 [] false (fun _ => Except.error "down")
    (fun _ => Except.ok "text")).1 "text" "text" "text" rfl rfl rfl

/-- C7: a failing search backend is downgraded to the empty-summary enrichment inside
`search_related_info`, and the generation run still completes with a full 3-variant
result whenever the generation backend is healthy — the search failure is never
surfaced to the caller. -/
theorem c7_search_failure_isolation (request : LineContentRequest) (sc : ScrapedContent)
    (selected_images : List String) (e : String)
    (gb : ChatRequest → Except String String)
    (hgb : ∀ r, ∃ c, gb r = Except.ok c) :
    (searchRelatedInfo (fun _ => Except.error e)
        (request.company_name ++ " " ++ sc.title)).summary = some ""
    ∧ ∃ l, generateLineContent request sc selected_images true (fun _ => Except.error e) gb
          = Except.ok l ∧ l.length = 3 := by
  refine ⟨rfl, ?_⟩
  obtain ⟨c0, h0⟩ := hgb (chatRequestFor
    (promptOf request sc selected_images true (fun _ => Except.error e)) 0)
  obtain ⟨c1, h1⟩ := hgb (chatRequestFor
    (promptOf request sc selected_images true (fun _ => Except.error e)) 1)
  obtain ⟨c2, h2⟩ := hgb (chatRequestFor
    (promptOf request sc selected_images true (fun _ => Except.error e)) 2)
  exact ⟨_, generateLineContent_ok request sc selected_images true _ gb c0 c1 c2 h0 h1 h2,
    rfl⟩

/-- Witness for C7 with a concrete failing search backend and healthy generator. -/
theorem c7_search_failure_isolation_witness :
    (searchRelatedInfo (fun _ => Except.error "boom")
        (req0.company_name ++ " " ++ sc0.title)).summary = some ""
    ∧ ∃ l, generateLineContent req0 sc0 [] true (fun _ => Except.error "boom")
          (fun _ => Except.ok "v") = Except.ok l ∧ l.length = 3 :=
  c7_search_failure_isolation req0 sc0 [] "boom" (fun _ => Except.ok "v")
    (fun _ => ⟨"v", rfl⟩)

/-- C10: with an empty selected-images list the image-count instruction component of
the prompt is the empty string (the instruction is omitted entirely), and the
requirements list of the built prompt states that there are no images. -/
theorem c10_zero_images_prompt (request : LineContentRequest) (sc : ScrapedContent)
    (w : Option EnhanceResult) :
    imageInstruction [] = ""
    ∧ ContainsSubstr (buildPrompt request sc [] w) "- 画像: なし" := by
  refine ⟨rfl, ?_⟩
  simp only [buildPrompt, List.isEmpty_nil, reduceIte]
  apply containsSubstr_append_left
  apply containsSubstr_append_left
  apply containsSubstr_append_left
  rw [← String.append_assoc]
  rw [show ("- 画像: " ++ "なし" : String) = "- 画像: なし" from rfl]
  exact containsSubstr_head _ _

/-- C5: the extracted title is the first candidate of the fixed order (h1 text,
article-title-class text, title-tag text, sentinel) whose stripped text is non-empty,
and it is never the empty string. -/
theorem c5_title_resolution (soup : Soup) :
    extractTitle soup = firstNonEmptyTitle (titleCandidates soup)
    ∧ extractTitle soup ≠ "" := by
  constructor
  · rcases hh1 : soup.h1 with _ | t1 <;>
    rcases hh2 : soup.articleTitleClass with _ | t2 <;>
    rcases hh3 : soup.titleTag with _ | t3 <;>
    simp only [extractTitle, titleCandidates, tryTitleText, firstNonEmptyTitle,
      hh1, hh2, hh3] <;>
    split_ifs <;> rfl
  · rcases hh1 : soup.h1 with _ | t1 <;>
    rcases hh2 : soup.articleTitleClass with _ | t2 <;>
    rcases hh3 : soup.titleTag with _ | t3 <;>
    simp only [extractTitle, tryTitleText, hh1, hh2, hh3] <;>
    first
      | decide
      | (split_ifs <;> first | assumption | decide)

/-! ## Deduplication lemmas for C6 -/

theorem mem_of_mem_dedupFirstGo {y : String} :
    ∀ {seen l : List String}, y ∈ dedupFirstGo seen l → y ∈ l ∧ y ∉ seen := by
  intro seen l
  induction l generalizing seen with
  | nil => intro h; simp [dedupFirstGo] at h
  | cons x xs ih =>
    intro h
    simp only [dedupFirstGo] at h
    split_ifs at h with hx
    · obtain ⟨hl, hs⟩ := ih h
      exact ⟨List.mem_cons_of_mem _ hl, hs⟩
    · rcases List.mem_cons.mp h with rfl | h'
      · exact ⟨List.mem_cons_self _ _, hx⟩
      · obtain ⟨hl, hs⟩ := ih h'
        exact ⟨List.mem_cons_of_mem _ hl, fun hy => hs (List.mem_cons_of_mem _ hy)⟩

theorem mem_dedupFirstGo_of {y : String} :
    ∀ {seen l : List String}, y ∈ l → y ∉ seen → y ∈ dedupFirstGo seen l := by
  intro seen l
  induction l generalizing seen with
  | nil => intro h _; simp at h
  | cons x xs ih =>
    intro hmem hns
    simp only [dedupFirstGo]
    split_ifs with hx
    · rcases List.mem_cons.mp hmem with rfl | h'
      · exact absurd hx hns
      · exact ih h' hns
    · rcases List.mem_cons.mp hmem with rfl | h'
      · exact List.mem_cons_self _ _
      · by_cases hyx : y = x
        · subst hyx; exact List.mem_cons_self _ _
        · refine List.mem_cons_of_mem _ (ih h' ?_)
          intro hy
          rcases List.mem_cons.mp hy with h1 | h2
          · exact hyx h1
          · exact hns h2

theorem nodup_dedupFirstGo : ∀ (seen l : List String), (dedupFirstGo seen l).Nodup := by
  intro seen l
  induction l generalizing seen with
  | nil => simp [dedupFirstGo]
  | cons x xs ih =>
    simp only [dedupFirstGo]
    split_ifs with hx
    · exact ih seen
    · refine List.nodup_cons.mpr ⟨?_, ih (x :: seen)⟩
      intro hmem
      exact (mem_of_mem_dedupFirstGo hmem).2 (List.mem_cons_self _ _)

theorem dedupFirstGo_eq_firstOccurrences :
    ∀ (l seen : List String),
      dedupFirstGo seen l = firstOccurrences (l.filter fun y => !decide (y ∈ seen)) := by
  intro l
  induction l with
  | nil => intro seen; simp [dedupFirstGo, firstOccurrences]
  | cons x xs ih =>
    intro seen
    rw [List.filter_cons]
    by_cases hx : x ∈ seen
    · have hb : (!decide (x ∈ seen)) = false := by simp [hx]
      rw [hb]
      simp only [Bool.false_eq_true, if_false, dedupFirstGo, if_pos hx]
      exact ih seen
    · have hb : (!decide (x ∈ seen)) = true := by simp [hx]
      rw [hb]
      simp only [if_true, dedupFirstGo, if_neg hx]
      rw [show firstOccurrences (x :: List.filter (fun y => !decide (y ∈ seen)) xs)
            = x :: firstOccurrences ((List.filter (fun y => !decide (y ∈ seen)) xs).filter
                fun y => !decide (y = x)) from by
        simp [firstOccurrences]]
      congr 1
      rw [ih (x :: seen), List.filter_filter]
      refine congrArg firstOccurrences (List.filter_congr ?_)
      intro y _
      by_cases h1 : y = x <;> by_cases h2 : y ∈ seen <;> simp [h1, h2, List.mem_cons]

theorem dedupFirst_eq_firstOccurrences (l : List String) :
    dedupFirst l = firstOccurrences l := by
  have h := dedupFirstGo_eq_firstOccurrences l []
  simpa [dedupFirst] using h

/-- C6: the image extractor returns exactly the keep-first deduplication of the raw
URL stream (container images resolved against the page URL, whole-document re-scan
when the container yields none): the result has no duplicates, contains exactly the
raw stream's URLs, and keeps each URL at its first-seen position. -/
theorem c6_image_resolution (pageUrl : String) (urljoin : String → String → String)
    (soup : Soup) :
    extractImages pageUrl urljoin soup = firstOccurrences (rawImages pageUrl urljoin soup)
    ∧ (extractImages pageUrl urljoin soup).Nodup
    ∧ ∀ u, u ∈ extractImages pageUrl urljoin soup ↔ u ∈ rawImages pageUrl urljoin soup := by
  refine ⟨dedupFirst_eq_firstOccurrences _, nodup_dedupFirstGo _ _, ?_⟩
  intro u
  constructor
  · exact fun h => (mem_of_mem_dedupFirstGo h).1
  · intro h
    exact mem_dedupFirstGo_of h (by simp)

/-! ## C1: the enrichment section and the empty summary -/

/-- C1 counterexample: after a search failure the enrichment carries a `summary` key
whose value is the empty string, and the prompt built from that enrichment does
contain the enrichment section header — the claim that the header never appears for an
empty summary is false on the code. -/
theorem c1_counterexample :
    (enhanceContentWithWebSearch (fun _ => Except.error "network down") req0
        sc0.title).search_results.summary = some ""
    ∧ ContainsSubstr
        (buildPrompt req0 sc0 []
          (some (enhanceContentWithWebSearch (fun _ => Except.error "network down") req0
            sc0.title)))
        webSearchHeader := by
  refine ⟨rfl, ?_⟩
  have hs : (enhanceContentWithWebSearch (fun _ => Except.error "network down") req0
      sc0.title).search_results.summary = some "" := rfl
  simp only [buildPrompt, webSearchSection, hs]
  apply containsSubstr_append_left
  apply containsSubstr_append_right
  apply containsSubstr_append_left
  exact containsSubstr_head _ _

/-- C1 amended: the enrichment section is omitted exactly when the web-search info
carries no `summary` key (info absent or key never set); whenever the `summary` key is
present — including the empty-string summary produced by the failure handler — the
section header is embedded in the prompt. -/
theorem c1_enrichment_section_amended (request : LineContentRequest) (sc : ScrapedContent)
    (selected_images : List String) (w : Option EnhanceResult) :
    ((Option.bind w fun info => info.search_results.summary) = none →
        webSearchSection w = "")
    ∧ ∀ s, (Option.bind w fun info => info.search_results.summary) = some s →
        ContainsSubstr (buildPrompt request sc selected_images w) webSearchHeader := by
  constructor
  · intro h
    rcases w with _ | info
    · rfl
    · have h' : info.search_results.summary = none := by simpa using h
      simp only [webSearchSection, h']
  · intro s h
    rcases w with _ | info
    · simp at h
    · have hs : info.search_results.summary = some s := by simpa using h
      simp only [buildPrompt, webSearchSection, hs]
      apply containsSubstr_append_left
      apply containsSubstr_append_right
      apply containsSubstr_append_left
      exact containsSubstr_head _ _

/-- Concrete enrichment with a present, non-empty summary for the C1 witness. -/
def enh0 : EnhanceResult :=
  { topic := "t"
    search_results := { summary := some "latest news", citations := none, error := none } }

/-- Witness for the amended C1 at concrete inputs: no summary key yields the empty
section; a present summary yields the header. -/
theorem c1_enrichment_section_amended_witness :
    webSearchSection none = ""
    ∧ ContainsSubstr (buildPrompt req0 sc0 [] (some enh0)) webSearchHeader :=
  ⟨(c1_enrichment_section_amended req0 sc0 [] none).1 rfl,
   (c1_enrichment_section_amended req0 sc0 [] (some enh0)).2 "latest news" rfl⟩
